import Mathlib

/-!
# Verification of the issue-tracker backend (`api/__init__.py`, `api/models.py`)

A shallow embedding of the Flask/SQLAlchemy issue-tracker backend.

Conventions of the embedding:

* JSON / Python values are modelled by the inductive `PyVal`; Python truthiness
  (`if not field: ...`) by `truthy`.
* A JSON object (a request body, an ORM row's `__dict__`) is an association
  list `List (String × PyVal)`; `dict.get(key)` returning `None` for a missing
  key is `lookupOrNone`.
* The database is `DB`: the three tables of `api/models.py` as Lean lists.
  Serial primary keys are modelled by `nextIssueId` / `nextCommentId` /
  `nextUserId` (one more than the largest id in the table).
* SQLAlchemy's `session.commit()` can fail on a constraint violation; the
  constraints declared in `api/models.py` (NOT NULL columns, the UNIQUE
  constraint on `issues.title`, the two foreign keys) are embedded as explicit
  boolean validity checks (`issueInsertOk`, ...).  Every handler catches a
  commit failure and aborts with 422, leaving the database unchanged.
* `datetime.now()` is passed to each handler as an explicit `now : Nat`
  parameter; a stored datetime is `PyVal.vTime n`.  `strftime` is abstracted
  by the injective stand-in `dtString` (no claim inspects the calendar text of
  a formatted date).
* A handler's result is `HResp`: HTTP status, the success JSON payload (`none`
  for every aborted request - the JSON error envelope is attached afterwards
  by `error_handler`, exactly as in Flask), and the database after the request.
-/

/-- A Python/JSON value as the handlers see it. -/
inductive PyVal where
  | vNone : PyVal
  | vBool : Bool → PyVal
  | vInt : Int → PyVal
  | vStr : String → PyVal
  | vTime : Nat → PyVal
  | vList : List PyVal → PyVal
  | vDict : List (String × PyVal) → PyVal

mutual

/-- Structural equality of Python values (the `==` / `!=` the handlers use). -/
def pyBeq : PyVal → PyVal → Bool
  | .vNone, .vNone => true
  | .vBool a, .vBool b => a == b
  | .vInt a, .vInt b => a == b
  | .vStr a, .vStr b => a == b
  | .vTime a, .vTime b => a == b
  | .vList a, .vList b => pyBeqList a b
  | .vDict a, .vDict b => pyBeqDict a b
  | _, _ => false

def pyBeqList : List PyVal → List PyVal → Bool
  | [], [] => true
  | a :: as, b :: bs => pyBeq a b && pyBeqList as bs
  | _, _ => false

def pyBeqDict : List (String × PyVal) → List (String × PyVal) → Bool
  | [], [] => true
  | (k₁, v₁) :: as, (k₂, v₂) :: bs => k₁ == k₂ && pyBeq v₁ v₂ && pyBeqDict as bs
  | _, _ => false

end

instance : BEq PyVal := ⟨pyBeq⟩

/-- Python truthiness: `None`, `False`, `0`, `""`, `[]` and the empty dict are
falsy; a `datetime` object is always truthy. -/
def truthy : PyVal → Bool
  | .vNone => false
  | .vBool b => b
  | .vInt n => n != 0
  | .vStr s => s != ""
  | .vTime _ => true
  | .vList l => !l.isEmpty
  | .vDict l => !l.isEmpty

/-- A JSON object / `__dict__`: an association list of string keys. -/
abbrev Body : Type := List (String × PyVal)

/-- Python `d.get(key)`: the value at `key`, or `None` when the key is absent. -/
def lookupOrNone (l : Body) (k : String) : PyVal :=
  match l.find? (fun kv => kv.1 == k) with
  | some kv => kv.2
  | none => .vNone

/-- Python `key in d` membership test for a dict. -/
def hasKey (l : Body) (k : String) : Bool :=
  (l.find? (fun kv => kv.1 == k)).isSome

/-- A row of the `users` table, as the instance `__dict__` that
`User.__getitem__` / `User.__setitem__` in `api/models.py` read and write:
an association list over the eight mapped column attributes. -/
abbrev UserRow : Type := Body

/-- Method `User.__getitem__` (`api/models.py`): the attribute when the key is in
`self.__dict__`, `None` otherwise. -/
def userGet (u : UserRow) (k : String) : PyVal :=
  lookupOrNone u k

/-- Method `User.__setitem__` (`api/models.py`): assigns only when the key is in
`self.__dict__` (the handler's loop guard makes the `KeyError` branch
unreachable, so the no-op on a missing key is never observed). -/
def userSet (u : UserRow) (k : String) (v : PyVal) : UserRow :=
  if (List.find? (fun kv => kv.1 == k) u).isSome then
    u.map (fun kv => if kv.1 == k then (kv.1, v) else kv)
  else u

/-- Builds a `users` row with the eight column attributes of the `User`
model in `api/models.py`. -/
def mkUser (id auth_id nickname name email created_at last_login roles : PyVal) :
    UserRow :=
  [("id", id), ("auth_id", auth_id), ("nickname", nickname), ("name", name),
   ("email", email), ("created_at", created_at), ("last_login", last_login),
   ("roles", roles)]

/-- A row of the `issues` table (`Issue` in `api/models.py`).  The `open`
column is called `openFlag` because `open` is a Lean keyword. -/
structure IssueRow where
  id : Nat
  title : PyVal
  openFlag : PyVal
  text : PyVal
  created_at : PyVal
  closed_at : PyVal
  last_modified : PyVal
  user_id : PyVal

/-- A row of the `comments` table (`Comment` in `api/models.py`). -/
structure CommentRow where
  id : Nat
  text : PyVal
  created_at : PyVal
  last_modified : PyVal
  user_id : PyVal
  issue_id : PyVal

/-- The three tables bound by `setup_db`. -/
structure DB where
  users : List UserRow
  issues : List IssueRow
  comments : List CommentRow

/-- A handler's observable outcome: HTTP status, the success JSON payload
(`none` whenever the handler aborted - the error envelope is produced
separately by `error_handler`), and the database after the request. -/
structure HResp where
  status : Nat
  json : Option PyVal
  db : DB

/-- The success envelope `jsonify({'success': True, key: payload})`. -/
def successEnvelope (key : String) (payload : PyVal) : PyVal :=
  .vDict [("success", .vBool true), (key, payload)]

/-- The serial `issues.id` sequence: one past the largest id ever present. -/
def nextIssueId (db : DB) : Nat :=
  (db.issues.foldl (fun m i => max m i.id) 0) + 1

/-- The serial `comments.id` sequence. -/
def nextCommentId (db : DB) : Nat :=
  (db.comments.foldl (fun m c => max m c.id) 0) + 1

/-- The serial `users.id` sequence (over the integer ids in the table). -/
def nextUserId (db : DB) : Int :=
  (db.users.foldl
    (fun m u => match userGet u "id" with | .vInt n => max m n | _ => m) 0) + 1

/-- The `users` row referenced by a foreign-key value, if any. -/
def findUserById (db : DB) (v : PyVal) : Option UserRow :=
  db.users.find? (fun u => userGet u "id" == v)

/-- Stand-in for `strftime("%m/%d/%Y, %H:%M:%S")` on the abstract clock: an
injective rendering of the tick (no claim inspects the calendar text). -/
def dtString (n : Nat) : String :=
  "datetime-" ++ toString n

/-- The `if created_at: created_at = created_at.strftime(...)` pattern shared
by all three `format` methods: a stored datetime becomes its string form,
`None` (falsy) is passed through. -/
def fmtDT : PyVal → PyVal
  | .vTime n => .vStr (dtString n)
  | v => v

/-- Method `User.format_short` (`api/models.py`). -/
def format_short (u : UserRow) : PyVal :=
  .vDict [("id", userGet u "id"), ("nickname", userGet u "nickname"),
          ("name", userGet u "name"), ("roles", userGet u "roles")]

/-- Method `Comment.format` (`api/models.py`). -/
def comment_format (c : CommentRow) : PyVal :=
  .vDict [("id", .vInt c.id), ("text", c.text),
          ("created_at", fmtDT c.created_at),
          ("last_modified", fmtDT c.last_modified),
          ("user_id", c.user_id), ("issue_id", c.issue_id)]

/-- Method `Issue.format_no_comments` (`api/models.py`).  `self.user.format_short()`
dereferences the `user` relationship: `none` models the `AttributeError`
raised when the foreign key resolves to no row. -/
def format_no_comments (db : DB) (i : IssueRow) : Option PyVal :=
  (findUserById db i.user_id).map (fun u =>
    .vDict [("id", .vInt i.id), ("title", i.title), ("open", i.openFlag),
            ("text", i.text), ("created_at", fmtDT i.created_at),
            ("closed_at", fmtDT i.closed_at),
            ("last_modified", fmtDT i.last_modified),
            ("user", format_short u)])

/-- Method `Issue.format_with_comments` (`api/models.py`): the long form, whose
`comments` entry is the dict `{comment.id: comment.format() for comment in
self.comments}` - keyed by the id of each comment whose `issue_id` references
this issue (`jsonify` renders the integer keys as strings). -/
def format_with_comments (db : DB) (i : IssueRow) : Option PyVal :=
  (findUserById db i.user_id).map (fun u =>
    .vDict [("id", .vInt i.id), ("title", i.title), ("open", i.openFlag),
            ("text", i.text), ("created_at", fmtDT i.created_at),
            ("closed_at", fmtDT i.closed_at),
            ("last_modified", fmtDT i.last_modified),
            ("user", format_short u),
            ("comments", .vDict
              ((db.comments.filter (fun c => c.issue_id == .vInt i.id)).map
                (fun c => (toString c.id, comment_format c))))])

/-!
## Constraint checks at `session.commit()`

`api/models.py` declares: `issues.title` NOT NULL and UNIQUE, `issues.text`,
`issues.created_at`, `issues.user_id` NOT NULL with `user_id` a foreign key to
`users.id`; `comments.text`, `comments.created_at`, `comments.user_id`,
`comments.issue_id` NOT NULL with foreign keys to `users.id` / `issues.id`;
`users.auth_id`, `users.email`, `users.created_at`, `users.last_login`
NOT NULL.  A violated constraint makes `commit()` raise; every handler
catches the exception and aborts with 422.  (Column type coercions and
length limits are outside the scope of the claims and are not modelled.)
-/

/-- The constraints checked when a new `issues` row is flushed. -/
def issueInsertOk (db : DB) (i : IssueRow) : Bool :=
  !(i.title == PyVal.vNone)
    && db.issues.all (fun j => !(pyBeq j.title i.title))
    && !(i.text == PyVal.vNone)
    && !(i.created_at == PyVal.vNone)
    && !(i.user_id == PyVal.vNone)
    && (findUserById db i.user_id).isSome

/-- The constraints checked when an updated `issues` row (primary key `id`)
is flushed. -/
def issueUpdateOk (db : DB) (id : Nat) (i : IssueRow) : Bool :=
  !(i.title == PyVal.vNone)
    && db.issues.all (fun j => j.id == id || !(pyBeq j.title i.title))
    && !(i.text == PyVal.vNone)
    && !(i.created_at == PyVal.vNone)
    && !(i.user_id == PyVal.vNone)

/-- The constraints checked when a new `comments` row is flushed. -/
def commentInsertOk (db : DB) (c : CommentRow) : Bool :=
  !(c.text == PyVal.vNone)
    && !(c.created_at == PyVal.vNone)
    && !(c.user_id == PyVal.vNone)
    && !(c.issue_id == PyVal.vNone)
    && (findUserById db c.user_id).isSome
    && db.issues.any (fun i => PyVal.vInt i.id == c.issue_id)

/-- The constraints checked when an updated `comments` row is flushed
(only `text` is mutable through `patch_comments`, plus `last_modified`). -/
def commentUpdateOk (c : CommentRow) : Bool :=
  !(c.text == PyVal.vNone)

/-- The constraints checked when a `users` row is flushed. -/
def userCommitOk (u : UserRow) : Bool :=
  !(userGet u "auth_id" == PyVal.vNone)
    && !(userGet u "email" == PyVal.vNone)
    && !(userGet u "created_at" == PyVal.vNone)
    && !(userGet u "last_login" == PyVal.vNone)

/-!
## `POST /users` (`add_user` in `api/__init__.py`)

The host check `request.environ.get('HTTP_HOST') != os.environ.get(
'ACCEPTED_HOST')` is abstracted as the boolean parameter `hostOk`.  The
status-500 outcomes model uncaught Python exceptions (Flask's plain
`500 Internal Server Error`, produced with no JSON envelope): `body.get(
'user')` returning a non-dict makes the subsequent `.get('user_id')` raise
`AttributeError`, and `one_or_none()` raises when several rows match.
-/

/-- Handler `add_user` (`api/__init__.py`, `POST /users`). -/
def add_user (hostOk : Bool) (db : DB) (body : Body) : HResp :=
  if !hostOk then ⟨401, none, db⟩
  else if body.any (fun kv => !truthy kv.2) then ⟨400, none, db⟩
  else
    match lookupOrNone body "user" with
    | .vDict user_dict =>
      let auth_id := lookupOrNone user_dict "user_id"
      if !truthy auth_id then ⟨400, none, db⟩
      else
        match db.users.filter (fun u => pyBeq (userGet u "auth_id") auth_id) with
        | [] =>
          let user := mkUser (.vInt (nextUserId db)) auth_id
            (lookupOrNone user_dict "nickname") (lookupOrNone user_dict "name")
            (lookupOrNone user_dict "email") (lookupOrNone user_dict "created_at")
            (lookupOrNone user_dict "created_at") (lookupOrNone body "roles")
          if userCommitOk user then
            ⟨200, some (successEnvelope "user" (format_short user)),
              { db with users := db.users ++ [user] }⟩
          else ⟨422, none, db⟩
        | [_] => ⟨422, none, db⟩
        | _ :: _ :: _ => ⟨500, none, db⟩
    | _ => ⟨500, none, db⟩

/-!
## `PATCH /users` (`update_user` in `api/__init__.py`)
-/

/-- The per-field update loop of `update_user`:
`for field in user_dict: if user[field] and user[field] != user_dict[field]:
user[field] = user_dict[field]`. -/
def updateUserFields (u : UserRow) (user_dict : Body) : UserRow :=
  user_dict.foldl
    (fun u kv =>
      if truthy (userGet u kv.1) && !(pyBeq (userGet u kv.1) kv.2) then
        userSet u kv.1 kv.2
      else u)
    u

/-- The full mutation `update_user` applies to the matched row: the field
loop, then `user.roles = new_roles` when they differ, then
`user.last_login = datetime.now()`. -/
def update_user_row (u : UserRow) (user_dict : Body) (new_roles : PyVal)
    (now : Nat) : UserRow :=
  let u₁ := updateUserFields u user_dict
  let u₂ := if !(pyBeq (userGet u₁ "roles") new_roles) then
      userSet u₁ "roles" new_roles
    else u₁
  userSet u₂ "last_login" (.vTime now)

/-- Handler `update_user` (`api/__init__.py`, `PATCH /users`).  `body.get('user')`
that `is None` aborts 422; a non-dict value raises on `.get` (500);
a missing row for the supplied `user_id` aborts 404; `body.get('roles')`
that `is None` aborts 422; a failing commit aborts 422. -/
def update_user (hostOk : Bool) (db : DB) (body : Body) (now : Nat) : HResp :=
  if !hostOk then ⟨401, none, db⟩
  else
    match lookupOrNone body "user" with
    | .vNone => ⟨422, none, db⟩
    | .vDict user_dict =>
      let auth_id := lookupOrNone user_dict "user_id"
      match db.users.filter (fun u => pyBeq (userGet u "auth_id") auth_id) with
      | [] => ⟨404, none, db⟩
      | [u] =>
        match lookupOrNone body "roles" with
        | .vNone => ⟨422, none, db⟩
        | new_roles =>
          let u' := update_user_row u user_dict new_roles now
          if userCommitOk u' then
            ⟨200, some (successEnvelope "user" (format_short u')),
              { db with users :=
                db.users.map (fun w =>
                  if pyBeq (userGet w "auth_id") auth_id then u' else w) }⟩
          else ⟨422, none, db⟩
      | _ :: _ :: _ => ⟨500, none, db⟩
    | _ => ⟨500, none, db⟩

/-!
## Issue and comment handlers (`api/__init__.py`)
-/

/-- Handler `get_issue` (`api/__init__.py`, `GET /issues/<id>`, behind
`requires_auth('get:issue')`): 404 when `Issue.query.get(id)` finds nothing,
otherwise 200 with the long form `format_with_comments` (500 models the
`AttributeError` when the issue's `user` relationship resolves to no row). -/
def get_issue (db : DB) (id : Nat) : HResp :=
  match db.issues.find? (fun i => i.id == id) with
  | none => ⟨404, none, db⟩
  | some issue =>
    match format_with_comments db issue with
    | some j => ⟨200, some (successEnvelope "issue" j), db⟩
    | none => ⟨500, none, db⟩

/-- Handler `post_issue` (`api/__init__.py`, `POST /issues`, behind
`requires_auth('post:issues')`).  The validation loop rejects with 400 when
any value *present* in the body is falsy; the new row takes `title`, `text`,
`user_id` from the body via `.get` (hence `None` when absent),
`created_at = datetime.now()`, and the column default `open=True`. -/
def post_issue (db : DB) (body : Body) (now : Nat) : HResp :=
  if body.any (fun kv => !truthy kv.2) then ⟨400, none, db⟩
  else
    let issue : IssueRow :=
      { id := nextIssueId db, title := lookupOrNone body "title",
        openFlag := .vBool true, text := lookupOrNone body "text",
        created_at := .vTime now, closed_at := .vNone,
        last_modified := .vNone, user_id := lookupOrNone body "user_id" }
    if issueInsertOk db issue then
      let db' := { db with issues := db.issues ++ [issue] }
      match format_no_comments db' issue with
      | some j => ⟨200, some (successEnvelope "issue" j), db'⟩
      | none => ⟨500, none, db'⟩
    else ⟨422, none, db⟩

/-- Handler `post_comment` (`api/__init__.py`, `POST /comments`, behind
`requires_auth('post:comments')`). -/
def post_comment (db : DB) (body : Body) (now : Nat) : HResp :=
  if body.any (fun kv => !truthy kv.2) then ⟨400, none, db⟩
  else
    let comment : CommentRow :=
      { id := nextCommentId db, text := lookupOrNone body "text",
        created_at := .vTime now, last_modified := .vNone,
        user_id := lookupOrNone body "user_id",
        issue_id := lookupOrNone body "issue_id" }
    if commentInsertOk db comment then
      ⟨200, some (successEnvelope "comment" (comment_format comment)),
        { db with comments := db.comments ++ [comment] }⟩
    else ⟨422, none, db⟩

/-- The in-place mutation `patch_issues` performs on the fetched issue:
`title` and `text` are overwritten whenever their key is present; when the
`open` key is present the flag is overwritten and, *if the supplied value is
falsy*, `closed_at = datetime.now()` - with no look at the previous state of
the flag; finally `last_modified = datetime.now()`. -/
def applyIssuePatch (issue : IssueRow) (body : Body) (now : Nat) : IssueRow :=
  let i₁ := if hasKey body "title" then
      { issue with title := lookupOrNone body "title" } else issue
  let i₂ := if hasKey body "text" then
      { i₁ with text := lookupOrNone body "text" } else i₁
  let i₃ := if hasKey body "open" then
      let v := lookupOrNone body "open"
      let ia := { i₂ with openFlag := v }
      if !truthy v then { ia with closed_at := .vTime now } else ia
    else i₂
  { i₃ with last_modified := .vTime now }

/-- Handler `patch_issues` (`api/__init__.py`, `PATCH /issues/<id>`, behind
`requires_auth('patch:issues')`): 404 on a missing row, 400 on an empty
body, 422 on a failing commit (database unchanged), otherwise the stored row
is replaced by `applyIssuePatch` (500 after the commit models the
`AttributeError` in `format_no_comments` when the `user` row is missing). -/
def patch_issues (db : DB) (id : Nat) (body : Body) (now : Nat) : HResp :=
  match db.issues.find? (fun i => i.id == id) with
  | none => ⟨404, none, db⟩
  | some issue =>
    if body.isEmpty then ⟨400, none, db⟩
    else
      let issue' := applyIssuePatch issue body now
      if issueUpdateOk db id issue' then
        let issues' := db.issues.map (fun i => if i.id == id then issue' else i)
        let db' := { db with issues := issues' }
        match format_no_comments db' issue' with
        | some j => ⟨200, some (successEnvelope "issue" j), db'⟩
        | none => ⟨500, none, db'⟩
      else ⟨422, none, db⟩

/-- Handler `patch_comments` (`api/__init__.py`, `PATCH /comments/<id>`, behind
`requires_auth('patch:comments')`). -/
def patch_comments (db : DB) (id : Nat) (body : Body) (now : Nat) : HResp :=
  match db.comments.find? (fun c => c.id == id) with
  | none => ⟨404, none, db⟩
  | some comment =>
    if body.isEmpty then ⟨400, none, db⟩
    else
      let c₁ := if hasKey body "text" then
          { comment with text := lookupOrNone body "text" } else comment
      let c₂ := { c₁ with last_modified := .vTime now }
      if commentUpdateOk c₂ then
        ⟨200, some (successEnvelope "comment" (comment_format c₂)),
          { db with comments :=
            db.comments.map (fun c => if c.id == id then c₂ else c) }⟩
      else ⟨422, none, db⟩

/-!
## Deletion and the cascade configuration of `api/models.py`

`api/models.py` places `cascade='all, delete'` on the two *many-to-one*
relationships declared on `Issue` and `Comment`:

  * `Issue.user   = relationship('User',  backref='issues',
                                 cascade='all, delete', ...)`
  * `Comment.user = relationship('User',  backref='comments',
                                 cascade='all, delete', ...)`
  * `Comment.issue = relationship('Issue', backref='comments',
                                  cascade='all, delete', ...)`

Under SQLAlchemy's documented semantics a cascade configured on a
relationship acts from the class that declares the relationship towards the
related class, so a `delete` cascade on a many-to-one relationship deletes
the *referred-to* row when the declaring row is deleted; the plain-string
`backref` gives the reverse (one-to-many) direction only the default
`save-update, merge` cascade.  Deleting the "one" side of a one-to-many
relationship without a `delete` cascade makes the flush set the loaded
children's foreign-key column to NULL; `comments.issue_id`,
`comments.user_id` and `issues.user_id` are NOT NULL (models and migration),
so such a flush raises `IntegrityError`, which the handler turns into a 422
with the transaction rolled back.

Hence `session.delete(issue); commit()`:
  * also deletes the issue's `User` row (cascade of `Issue.user`);
  * tries to NULL `issue_id` on the issue's comments and `user_id` on that
    user's other issues and comments - failing with 422 whenever any exist.
-/

/-- Handler `delete_issues` (`api/__init__.py`, `DELETE /issues/<id>`, behind
`requires_auth('delete:issues')`), with `Issue.delete` =
`db.session.delete(self); db.session.commit()` under the cascade
configuration described above. -/
def delete_issues (db : DB) (id : Nat) : HResp :=
  match db.issues.find? (fun i => i.id == id) with
  | none => ⟨404, none, db⟩
  | some issue =>
    let isDelUser : UserRow → Bool := fun u => pyBeq (userGet u "id") issue.user_id
    let orphanComments := db.comments.filter (fun c => pyBeq c.issue_id (.vInt issue.id))
    let orphanUserIssues := db.issues.filter
      (fun i => !(i.id == issue.id) && (db.users.filter isDelUser).any
        (fun u => pyBeq (userGet u "id") i.user_id))
    let orphanUserComments := db.comments.filter
      (fun c => (db.users.filter isDelUser).any
        (fun u => pyBeq (userGet u "id") c.user_id))
    if orphanComments.isEmpty && orphanUserIssues.isEmpty
        && orphanUserComments.isEmpty then
      ⟨200, some (successEnvelope "delete" (.vStr (toString id))),
        { db with issues := db.issues.filter (fun i => !(i.id == id)),
                  users := db.users.filter (fun u => !isDelUser u) }⟩
    else ⟨422, none, db⟩

/-- Handler `delete_comments` (`api/__init__.py`, `DELETE /comments/<id>`, behind
`requires_auth('delete:comments')`): the delete cascades of `Comment.issue`,
`Comment.user` and (transitively) `Issue.user` also delete the comment's
issue, the comment's user and the issue's user; the flush then fails with
422 whenever any surviving row would need its NOT NULL foreign key set to
NULL. -/
def delete_comments (db : DB) (id : Nat) : HResp :=
  match db.comments.find? (fun c => c.id == id) with
  | none => ⟨404, none, db⟩
  | some comment =>
    let delIssues := db.issues.filter (fun i => pyBeq (.vInt i.id) comment.issue_id)
    let isDelUser : UserRow → Bool := fun u =>
      pyBeq (userGet u "id") comment.user_id
        || delIssues.any (fun i => pyBeq (userGet u "id") i.user_id)
    let orphanIssueComments := db.comments.filter
      (fun c => !(c.id == id) && delIssues.any (fun i => pyBeq c.issue_id (.vInt i.id)))
    let orphanUserIssues := db.issues.filter
      (fun i => !(delIssues.any (fun j => j.id == i.id))
        && (db.users.filter isDelUser).any (fun u => pyBeq (userGet u "id") i.user_id))
    let orphanUserComments := db.comments.filter
      (fun c => !(c.id == id)
        && (db.users.filter isDelUser).any (fun u => pyBeq (userGet u "id") c.user_id))
    if orphanIssueComments.isEmpty && orphanUserIssues.isEmpty
        && orphanUserComments.isEmpty then
      ⟨200, some (successEnvelope "delete" (.vStr (toString id))),
        { db with comments := db.comments.filter (fun c => !(c.id == id)),
                  issues := db.issues.filter
                    (fun i => !(delIssues.any (fun j => j.id == i.id))),
                  users := db.users.filter (fun u => !isDelUser u) }⟩
    else ⟨422, none, db⟩

/-!
## Authorization (`api/auth.py` - not present in the repository)

`api/__init__.py` imports `AuthError` and `requires_auth` from `.auth`, but
the repository snapshot contains no `api/auth.py`; the two are modelled from
the specification.
-/

/-- Modelled from the spec: the `AuthError` exception of the missing
`api/auth.py`.  Section 7 requires every error to surface through the JSON
envelope `error_handler` builds from `error.code` and `error.description`,
so `AuthError` carries those two attributes. -/
structure AuthError where
  code : Nat
  description : String

/-- Modelled from the spec: a bearer token as the verification step of the
missing `api/auth.py` sees it - whether the signature/issuer/audience checks
succeed, and the `permissions` claim (an array of scope strings). -/
structure Token where
  verified : Bool
  permissions : List String

/-- Modelled from the spec: `requires_auth` of the missing `api/auth.py`.
Section 4.2: fail with 401 if the token is absent/malformed/unverifiable,
403 if verified but the required permission is absent; otherwise the
verified claim set is passed to the handler. -/
def requires_auth (tok : Option Token) (permission : String) :
    Except AuthError (List String) :=
  match tok with
  | none => .error ⟨401, "authorization header missing"⟩
  | some t =>
    if !t.verified then .error ⟨401, "token verification failed"⟩
    else if t.permissions.contains permission then .ok t.permissions
    else .error ⟨403, "permission missing"⟩

/-- The `@requires_auth(permission)` decorator applied to a handler: the
handler only runs when `requires_auth` succeeds; a raised `AuthError`
becomes a response with its status code. -/
def gatedRoute (permission : String) (tok : Option Token) (db : DB)
    (handler : DB → HResp) : HResp :=
  match requires_auth tok permission with
  | .error e => ⟨e.code, none, db⟩
  | .ok _ => handler db

/-- Route `GET /issues/<id>` as wired: `requires_auth('get:issue')` then
`get_issue`. -/
def route_get_issue (tok : Option Token) (db : DB) (id : Nat) : HResp :=
  gatedRoute "get:issue" tok db (fun db => get_issue db id)

/-- Route `POST /issues` as wired: `requires_auth('post:issues')` then
`post_issue`. -/
def route_post_issue (tok : Option Token) (db : DB) (body : Body) (now : Nat) :
    HResp :=
  gatedRoute "post:issues" tok db (fun db => post_issue db body now)

/-- Route `PATCH /issues/<id>` as wired: `requires_auth('patch:issues')` then
`patch_issues`. -/
def route_patch_issues (tok : Option Token) (db : DB) (id : Nat) (body : Body)
    (now : Nat) : HResp :=
  gatedRoute "patch:issues" tok db (fun db => patch_issues db id body now)

/-- Route `DELETE /issues/<id>` as wired: `requires_auth('delete:issues')` then
`delete_issues`. -/
def route_delete_issues (tok : Option Token) (db : DB) (id : Nat) : HResp :=
  gatedRoute "delete:issues" tok db (fun db => delete_issues db id)

/-- Route `POST /comments` as wired: `requires_auth('post:comments')` then
`post_comment`. -/
def route_post_comment (tok : Option Token) (db : DB) (body : Body) (now : Nat) :
    HResp :=
  gatedRoute "post:comments" tok db (fun db => post_comment db body now)

/-- Route `PATCH /comments/<id>` as wired: `requires_auth('patch:comments')` then
`patch_comments`. -/
def route_patch_comments (tok : Option Token) (db : DB) (id : Nat) (body : Body)
    (now : Nat) : HResp :=
  gatedRoute "patch:comments" tok db (fun db => patch_comments db id body now)

/-- Route `DELETE /comments/<id>` as wired: `requires_auth('delete:comments')`
then `delete_comments`. -/
def route_delete_comments (tok : Option Token) (db : DB) (id : Nat) : HResp :=
  gatedRoute "delete:comments" tok db (fun db => delete_comments db id)

/-!
## Error envelope (`error_handler` in `api/__init__.py`)
-/

/-- The status codes for which `create_app` registers `error_handler`
(`@app.errorhandler(400/401/403/404/405/422)`); `AuthError` is registered
alongside them.  Any other failure (an uncaught exception) is answered by
Flask's default plain 500 page, not by `error_handler`. -/
def handled_error_codes : List Nat :=
  [400, 401, 403, 404, 405, 422]

/-- Handler `error_handler` (`api/__init__.py`): builds
`{'success': False, 'error': error.code, 'message': error.description}` and
returns it with HTTP status `error.code`. -/
def error_handler (code : Nat) (description : String) : Nat × PyVal :=
  (code, .vDict [("success", .vBool false), ("error", .vInt code),
                 ("message", .vStr description)])

/-!
## Helper observations shared by several theorems
-/

/-- Dict member access on a JSON value (`j['comments']`-style); `None` on a
non-dict. -/
def jsonGet : PyVal → String → PyVal
  | .vDict l, k => lookupOrNone l k
  | _, _ => .vNone

theorem applyIssuePatch_closed_at (issue : IssueRow) (body : Body) (now : Nat) :
    (applyIssuePatch issue body now).closed_at =
      (if hasKey body "open" && !truthy (lookupOrNone body "open") then
        .vTime now
      else issue.closed_at) := by
  unfold applyIssuePatch
  by_cases h1 : hasKey body "title" <;> by_cases h2 : hasKey body "text" <;>
    by_cases h3 : hasKey body "open" <;>
      by_cases h4 : truthy (lookupOrNone body "open") <;>
        simp [h1, h2, h3, h4]

theorem patch_success_issues (db : DB) (id : Nat) (body : Body) (now : Nat)
    (issue : IssueRow)
    (hfind : db.issues.find? (fun i => i.id == id) = some issue)
    (h200 : (patch_issues db id body now).status = 200) :
    (patch_issues db id body now).db.issues =
      db.issues.map
        (fun i => if i.id == id then applyIssuePatch issue body now else i) := by
  unfold patch_issues at h200 ⊢
  rw [hfind] at h200 ⊢
  split at h200
  · rename_i heq
    exact absurd heq (by simp)
  · rename_i issue2 heq
    injection heq with hi
    subst hi
    split at h200
    · simp at h200
    · rename_i hb
      dsimp only at h200
      split at h200
      · rename_i hok
        split at h200
        · rename_i j hfmt
          simp only [hb, Bool.false_eq_true, if_false, hok, if_true, hfmt]
        · simp at h200
      · simp at h200

/-- C1 (code bug): with one user, one issue owned by it and one comment on
that issue, `DELETE /issues/1` does not cascade: it returns 422 and leaves
the database - the comment included - untouched, because the
`cascade='all, delete'` of `api/models.py` sits on the many-to-one side of
each relationship, so the flush tries to NULL the NOT NULL
`comments.issue_id` and fails. -/
theorem delete_issues_cascade_bug :
    delete_issues
      ⟨[mkUser (.vInt 1) (.vStr "auth0-1") .vNone .vNone (.vStr "e@e.com")
          (.vTime 1) (.vTime 1) .vNone],
       [⟨1, .vStr "t", .vBool true, .vStr "x", .vTime 1, .vNone, .vNone, .vInt 1⟩],
       [⟨1, .vStr "c", .vTime 1, .vNone, .vInt 1, .vInt 1⟩]⟩ 1 =
      ⟨422, none,
        ⟨[mkUser (.vInt 1) (.vStr "auth0-1") .vNone .vNone (.vStr "e@e.com")
            (.vTime 1) (.vTime 1) .vNone],
         [⟨1, .vStr "t", .vBool true, .vStr "x", .vTime 1, .vNone, .vNone, .vInt 1⟩],
         [⟨1, .vStr "c", .vTime 1, .vNone, .vInt 1, .vInt 1⟩]⟩⟩ ∧
    (⟨[mkUser (.vInt 1) (.vStr "auth0-1") .vNone .vNone (.vStr "e@e.com")
          (.vTime 1) (.vTime 1) .vNone],
       [⟨1, .vStr "t", .vBool true, .vStr "x", .vTime 1, .vNone, .vNone, .vInt 1⟩],
       [⟨1, .vStr "c", .vTime 1, .vNone, .vInt 1, .vInt 1⟩]⟩ : DB).comments.length
      = 1 :=
  ⟨rfl, rfl⟩

/-- C2 counterexample: patching an *already closed* issue
(`open = False`, `closed_at` = time 5) with a body that sets `open` to
`False` again succeeds with 200 and reassigns `closed_at` to the request
time 99 - refuting that `closed_at` is "left unchanged" when no
open-to-closed transition happens. -/
theorem patch_issues_closed_at_reassigned_cx :
    (patch_issues
      ⟨[mkUser (.vInt 1) (.vStr "auth0-1") .vNone .vNone (.vStr "e@e.com")
          (.vTime 1) (.vTime 1) .vNone],
       [⟨1, .vStr "t", .vBool false, .vStr "x", .vTime 1, .vTime 5, .vNone,
          .vInt 1⟩], []⟩
      1 [("open", .vBool false)] 99).status = 200 ∧
    (patch_issues
      ⟨[mkUser (.vInt 1) (.vStr "auth0-1") .vNone .vNone (.vStr "e@e.com")
          (.vTime 1) (.vTime 1) .vNone],
       [⟨1, .vStr "t", .vBool false, .vStr "x", .vTime 1, .vTime 5, .vNone,
          .vInt 1⟩], []⟩
      1 [("open", .vBool false)] 99).db.issues.map (fun i => i.closed_at) =
      [.vTime 99] ∧
    ¬ (PyVal.vTime 99 = .vTime 5) :=
  ⟨rfl, rfl, by simp⟩

/-- C2 (amended): on a successful `PATCH /issues/<id>` of an existing issue,
the stored row is the patched row, whose `closed_at` is freshly assigned the
request time exactly when the body carries an `open` key with a falsy value
- irrespective of the issue's previous open/closed state - and is the
previous value otherwise. -/
theorem patch_issues_closed_at_spec (db : DB) (id : Nat) (body : Body)
    (now : Nat) (issue : IssueRow)
    (hfind : db.issues.find? (fun i => i.id == id) = some issue)
    (h200 : (patch_issues db id body now).status = 200) :
    (patch_issues db id body now).db.issues =
      db.issues.map
        (fun i => if i.id == id then applyIssuePatch issue body now else i) ∧
    (applyIssuePatch issue body now).closed_at =
      (if hasKey body "open" && !truthy (lookupOrNone body "open") then
        .vTime now
      else issue.closed_at) :=
  ⟨patch_success_issues db id body now issue hfind h200,
   applyIssuePatch_closed_at issue body now⟩

/-- Witness for `patch_issues_closed_at_spec`: a closed issue patched with a
falsy `open` gets `closed_at` = the request time. -/
theorem patch_issues_closed_at_spec_witness :
    (patch_issues
      ⟨[mkUser (.vInt 1) (.vStr "auth0-1") .vNone .vNone (.vStr "e@e.com")
          (.vTime 1) (.vTime 1) .vNone],
       [⟨1, .vStr "t", .vBool false, .vStr "x", .vTime 1, .vTime 5, .vNone,
          .vInt 1⟩], []⟩
      1 [("open", .vBool false)] 99).db.issues =
      [⟨1, .vStr "t", .vBool false, .vStr "x", .vTime 1, .vTime 5, .vNone,
         .vInt 1⟩].map
        (fun i => if i.id == 1 then
          applyIssuePatch i [("open", .vBool false)] 99 else i) ∧
    (applyIssuePatch
      ⟨1, .vStr "t", .vBool false, .vStr "x", .vTime 1, .vTime 5, .vNone,
        .vInt 1⟩ [("open", .vBool false)] 99).closed_at =
      (if hasKey [("open", PyVal.vBool false)] "open"
          && !truthy (lookupOrNone [("open", PyVal.vBool false)] "open") then
        PyVal.vTime 99
      else PyVal.vTime 5) := by
  have h := patch_issues_closed_at_spec
    ⟨[mkUser (.vInt 1) (.vStr "auth0-1") .vNone .vNone (.vStr "e@e.com")
        (.vTime 1) (.vTime 1) .vNone],
     [⟨1, .vStr "t", .vBool false, .vStr "x", .vTime 1, .vTime 5, .vNone,
        .vInt 1⟩], []⟩
    1 [("open", .vBool false)] 99
    ⟨1, .vStr "t", .vBool false, .vStr "x", .vTime 1, .vTime 5, .vNone, .vInt 1⟩
    rfl rfl
  exact h

/-- C8: on a successful `PATCH /issues/<id>` of an existing *open* issue,
the stored row is the patched row; if the body sets `open` to `False` its
`closed_at` is the (non-null) request timestamp, and if the body has no
`open` key its `closed_at` is exactly the previous value. -/
theorem patch_issues_open_to_closed_spec (db : DB) (id : Nat) (body : Body)
    (now : Nat) (issue : IssueRow)
    (hfind : db.issues.find? (fun i => i.id == id) = some issue)
    (hopen : issue.openFlag = .vBool true)
    (h200 : (patch_issues db id body now).status = 200) :
    (patch_issues db id body now).db.issues =
      db.issues.map
        (fun i => if i.id == id then applyIssuePatch issue body now else i) ∧
    (hasKey body "open" = true → lookupOrNone body "open" = .vBool false →
      (applyIssuePatch issue body now).closed_at = .vTime now ∧
      (applyIssuePatch issue body now).closed_at ≠ .vNone) ∧
    (hasKey body "open" = false →
      (applyIssuePatch issue body now).closed_at = issue.closed_at) := by
  refine ⟨patch_success_issues db id body now issue hfind h200, ?_, ?_⟩
  · intro hk hv
    rw [applyIssuePatch_closed_at, hk, hv]
    simp [truthy]
  · intro hk
    rw [applyIssuePatch_closed_at, hk]
    simp

/-- Witness for `patch_issues_open_to_closed_spec`: an open issue patched
with `open = False` at time 99. -/
theorem patch_issues_open_to_closed_spec_witness :
    (patch_issues
      ⟨[mkUser (.vInt 1) (.vStr "auth0-1") .vNone .vNone (.vStr "e@e.com")
          (.vTime 1) (.vTime 1) .vNone],
       [⟨1, .vStr "t", .vBool true, .vStr "x", .vTime 1, .vNone, .vNone,
          .vInt 1⟩], []⟩
      1 [("open", .vBool false)] 99).db.issues =
      [⟨1, .vStr "t", .vBool true, .vStr "x", .vTime 1, .vNone, .vNone,
         .vInt 1⟩].map
        (fun i => if i.id == 1 then
          applyIssuePatch i [("open", .vBool false)] 99 else i) ∧
    (hasKey [("open", PyVal.vBool false)] "open" = true →
      lookupOrNone [("open", PyVal.vBool false)] "open" = .vBool false →
      (applyIssuePatch
        ⟨1, .vStr "t", .vBool true, .vStr "x", .vTime 1, .vNone, .vNone,
          .vInt 1⟩ [("open", .vBool false)] 99).closed_at = .vTime 99 ∧
      (applyIssuePatch
        ⟨1, .vStr "t", .vBool true, .vStr "x", .vTime 1, .vNone, .vNone,
          .vInt 1⟩ [("open", .vBool false)] 99).closed_at ≠ .vNone) ∧
    (hasKey [("open", PyVal.vBool false)] "open" = false →
      (applyIssuePatch
        ⟨1, .vStr "t", .vBool true, .vStr "x", .vTime 1, .vNone, .vNone,
          .vInt 1⟩ [("open", .vBool false)] 99).closed_at = PyVal.vNone) :=
  patch_issues_open_to_closed_spec
    ⟨[mkUser (.vInt 1) (.vStr "auth0-1") .vNone .vNone (.vStr "e@e.com")
        (.vTime 1) (.vTime 1) .vNone],
     [⟨1, .vStr "t", .vBool true, .vStr "x", .vTime 1, .vNone, .vNone,
        .vInt 1⟩], []⟩
    1 [("open", .vBool false)] 99
    ⟨1, .vStr "t", .vBool true, .vStr "x", .vTime 1, .vNone, .vNone, .vInt 1⟩
    rfl rfl rfl

/-- C3 counterexample: against a store holding user 1 and an issue titled
"t", a duplicate-title `POST /issues` and a `POST /issues` failing for an
unrelated persistence reason (a `user_id` referencing no user) produce the
*identical* response - the same generic 422 with no payload and an unchanged
store - so the uniqueness violation does not surface as a distinguishable
conflict error. -/
theorem post_issue_conflict_indistinct_cx :
    post_issue
      ⟨[mkUser (.vInt 1) (.vStr "auth0-1") .vNone .vNone (.vStr "e@e.com")
          (.vTime 1) (.vTime 1) .vNone],
       [⟨1, .vStr "t", .vBool true, .vStr "x", .vTime 1, .vNone, .vNone,
          .vInt 1⟩], []⟩
      [("title", .vStr "t"), ("text", .vStr "y"), ("user_id", .vInt 1)] 7 =
      post_issue
        ⟨[mkUser (.vInt 1) (.vStr "auth0-1") .vNone .vNone (.vStr "e@e.com")
            (.vTime 1) (.vTime 1) .vNone],
         [⟨1, .vStr "t", .vBool true, .vStr "x", .vTime 1, .vNone, .vNone,
            .vInt 1⟩], []⟩
        [("title", .vStr "fresh"), ("text", .vStr "y"), ("user_id", .vInt 9)]
        7 ∧
    (post_issue
      ⟨[mkUser (.vInt 1) (.vStr "auth0-1") .vNone .vNone (.vStr "e@e.com")
          (.vTime 1) (.vTime 1) .vNone],
       [⟨1, .vStr "t", .vBool true, .vStr "x", .vTime 1, .vNone, .vNone,
          .vInt 1⟩], []⟩
      [("title", .vStr "t"), ("text", .vStr "y"), ("user_id", .vInt 1)]
      7).status = 422 :=
  ⟨rfl, rfl⟩

/-- C3 (amended): a well-formed `POST /issues` whose title equals a stored
issue's title is answered 422 with the issue table unchanged (though by the
same generic abort any other persistence failure receives). -/
theorem post_issue_duplicate_title_spec (db : DB) (body : Body) (now : Nat)
    (hvals : body.any (fun kv => !truthy kv.2) = false)
    (hdup : db.issues.any
      (fun j => pyBeq j.title (lookupOrNone body "title")) = true) :
    post_issue db body now = ⟨422, none, db⟩ := by
  have hall : db.issues.all
      (fun j => !(pyBeq j.title (lookupOrNone body "title"))) = false := by
    rcases List.any_eq_true.mp hdup with ⟨j, hj, hbeq⟩
    apply Bool.eq_false_iff.mpr
    intro hall
    have h2 := List.all_eq_true.mp hall j hj
    rw [hbeq] at h2
    simp at h2
  unfold post_issue
  rw [hvals]
  dsimp only
  have hins : issueInsertOk db
      { id := nextIssueId db, title := lookupOrNone body "title",
        openFlag := .vBool true, text := lookupOrNone body "text",
        created_at := .vTime now, closed_at := .vNone,
        last_modified := .vNone, user_id := lookupOrNone body "user_id" }
      = false := by
    unfold issueInsertOk
    dsimp only
    rw [hall]
    simp
  rw [hins]
  simp

/-- Witness for `post_issue_duplicate_title_spec`: posting the already-used
title "t". -/
theorem post_issue_duplicate_title_spec_witness :
    post_issue
      ⟨[mkUser (.vInt 1) (.vStr "auth0-1") .vNone .vNone (.vStr "e@e.com")
          (.vTime 1) (.vTime 1) .vNone],
       [⟨1, .vStr "t", .vBool true, .vStr "x", .vTime 1, .vNone, .vNone,
          .vInt 1⟩], []⟩
      [("title", .vStr "t"), ("text", .vStr "y"), ("user_id", .vInt 1)] 7 =
      ⟨422, none,
        ⟨[mkUser (.vInt 1) (.vStr "auth0-1") .vNone .vNone (.vStr "e@e.com")
            (.vTime 1) (.vTime 1) .vNone],
         [⟨1, .vStr "t", .vBool true, .vStr "x", .vTime 1, .vNone, .vNone,
            .vInt 1⟩], []⟩⟩ :=
  post_issue_duplicate_title_spec
    ⟨[mkUser (.vInt 1) (.vStr "auth0-1") .vNone .vNone (.vStr "e@e.com")
        (.vTime 1) (.vTime 1) .vNone],
     [⟨1, .vStr "t", .vBool true, .vStr "x", .vTime 1, .vNone, .vNone,
        .vInt 1⟩], []⟩
    [("title", .vStr "t"), ("text", .vStr "y"), ("user_id", .vInt 1)] 7
    rfl rfl

/-- C4 counterexample: a `POST /issues` body from which the required `text`
and `user_id` fields are entirely *missing* passes the field-validation loop
and reaches persistence, which fails: the status is 422, not the 400 the
claim requires for a missing required field. -/
theorem post_issue_missing_field_cx :
    (post_issue
      ⟨[mkUser (.vInt 1) (.vStr "auth0-1") .vNone .vNone (.vStr "e@e.com")
          (.vTime 1) (.vTime 1) .vNone], [], []⟩
      [("title", .vStr "a")] 7).status = 422 ∧
    ¬ ((post_issue
      ⟨[mkUser (.vInt 1) (.vStr "auth0-1") .vNone .vNone (.vStr "e@e.com")
          (.vTime 1) (.vTime 1) .vNone], [], []⟩
      [("title", .vStr "a")] 7).status = 400) :=
  ⟨rfl, by decide⟩

/-- C4 (amended): each create handler (`POST /issues`, `POST /comments`,
`POST /users`) rejects with 400, before any persistence operation, whenever
some field *present* in the JSON body has a falsy (empty) value.  The
original claim's further guarantee - 400 also when a required field is
entirely *missing* from the body - does not hold: the value loop cannot see
absent keys, and `post_issue_missing_field_cx` shows a `POST /issues` with
its `text` and `user_id` missing reaching persistence and failing 422.
(What a missing field yields varies by handler and field: `add_user` still
400s a missing `user_id` through its separate explicit check, and crashes
on a missing `user` object.) -/
theorem create_handlers_reject_falsy_fields (db : DB) (body : Body)
    (now : Nat) (h : body.any (fun kv => !truthy kv.2) = true) :
    post_issue db body now = ⟨400, none, db⟩ ∧
    post_comment db body now = ⟨400, none, db⟩ ∧
    add_user true db body = ⟨400, none, db⟩ := by
  unfold post_issue post_comment add_user
  rw [h]
  simp

/-- Witness for `create_handlers_reject_falsy_fields`: a body with an empty
`text` field. -/
theorem create_handlers_reject_falsy_fields_witness :
    post_issue ⟨[], [], []⟩ [("text", .vStr "")] 7 = ⟨400, none, ⟨[], [], []⟩⟩ ∧
    post_comment ⟨[], [], []⟩ [("text", .vStr "")] 7 =
      ⟨400, none, ⟨[], [], []⟩⟩ ∧
    add_user true ⟨[], [], []⟩ [("text", .vStr "")] =
      ⟨400, none, ⟨[], [], []⟩⟩ :=
  create_handlers_reject_falsy_fields ⟨[], [], []⟩ [("text", .vStr "")] 7 rfl

/-- C5: `POST /users` with an external id (`user_id` in the nested `user`
object, stored as `auth_id`) already held by exactly one stored user returns
422 with the users table untouched; with a previously unseen external id
(and a row passing the column constraints) it succeeds, appending exactly
that row. -/
theorem add_user_unique_auth_id_spec :
    (∀ (db : DB) (body user_dict : Body) (u : UserRow),
      lookupOrNone body "user" = .vDict user_dict →
      body.any (fun kv => !truthy kv.2) = false →
      truthy (lookupOrNone user_dict "user_id") = true →
      db.users.filter
        (fun w => pyBeq (userGet w "auth_id")
          (lookupOrNone user_dict "user_id")) = [u] →
      add_user true db body = ⟨422, none, db⟩) ∧
    (∀ (db : DB) (body user_dict : Body),
      lookupOrNone body "user" = .vDict user_dict →
      body.any (fun kv => !truthy kv.2) = false →
      truthy (lookupOrNone user_dict "user_id") = true →
      db.users.filter
        (fun w => pyBeq (userGet w "auth_id")
          (lookupOrNone user_dict "user_id")) = [] →
      userCommitOk (mkUser (.vInt (nextUserId db))
        (lookupOrNone user_dict "user_id") (lookupOrNone user_dict "nickname")
        (lookupOrNone user_dict "name") (lookupOrNone user_dict "email")
        (lookupOrNone user_dict "created_at")
        (lookupOrNone user_dict "created_at")
        (lookupOrNone body "roles")) = true →
      add_user true db body =
        ⟨200,
         some (successEnvelope "user" (format_short (mkUser
           (.vInt (nextUserId db)) (lookupOrNone user_dict "user_id")
           (lookupOrNone user_dict "nickname") (lookupOrNone user_dict "name")
           (lookupOrNone user_dict "email")
           (lookupOrNone user_dict "created_at")
           (lookupOrNone user_dict "created_at")
           (lookupOrNone body "roles")))),
         { db with users := db.users ++ [mkUser (.vInt (nextUserId db))
           (lookupOrNone user_dict "user_id") (lookupOrNone user_dict "nickname")
           (lookupOrNone user_dict "name") (lookupOrNone user_dict "email")
           (lookupOrNone user_dict "created_at")
           (lookupOrNone user_dict "created_at")
           (lookupOrNone body "roles")] }⟩) := by
  constructor
  · intro db body user_dict u huser hvals hid hfilt
    unfold add_user
    rw [hvals, huser]
    dsimp only
    rw [hid, hfilt]
    simp
  · intro db body user_dict huser hvals hid hfilt hok
    unfold add_user
    rw [hvals, huser]
    dsimp only
    rw [hid, hfilt]
    simp only [Bool.not_true, Bool.false_eq_true, if_false, hok, if_true]

/-- Witness for `add_user_unique_auth_id_spec`: a store holding the user
with external id "auth0-1"; registering "auth0-1" again is refused with 422,
registering the unseen "auth0-2" succeeds. -/
theorem add_user_unique_auth_id_spec_witness :
    add_user true
      ⟨[mkUser (.vInt 1) (.vStr "auth0-1") .vNone .vNone (.vStr "e@e.com")
          (.vTime 1) (.vTime 1) .vNone], [], []⟩
      [("user", .vDict [("user_id", .vStr "auth0-1"),
          ("email", .vStr "f@f.com"), ("created_at", .vTime 3)]),
       ("roles", .vList [.vStr "Admin"])] =
      ⟨422, none,
        ⟨[mkUser (.vInt 1) (.vStr "auth0-1") .vNone .vNone (.vStr "e@e.com")
            (.vTime 1) (.vTime 1) .vNone], [], []⟩⟩ ∧
    (add_user true
      ⟨[mkUser (.vInt 1) (.vStr "auth0-1") .vNone .vNone (.vStr "e@e.com")
          (.vTime 1) (.vTime 1) .vNone], [], []⟩
      [("user", .vDict [("user_id", .vStr "auth0-2"),
          ("email", .vStr "f@f.com"), ("created_at", .vTime 3)]),
       ("roles", .vList [.vStr "Admin"])]).db.users.length = 2 := by
  constructor
  · exact add_user_unique_auth_id_spec.1
      ⟨[mkUser (.vInt 1) (.vStr "auth0-1") .vNone .vNone (.vStr "e@e.com")
          (.vTime 1) (.vTime 1) .vNone], [], []⟩
      [("user", .vDict [("user_id", .vStr "auth0-1"),
          ("email", .vStr "f@f.com"), ("created_at", .vTime 3)]),
       ("roles", .vList [.vStr "Admin"])]
      [("user_id", .vStr "auth0-1"), ("email", .vStr "f@f.com"),
       ("created_at", .vTime 3)]
      (mkUser (.vInt 1) (.vStr "auth0-1") .vNone .vNone (.vStr "e@e.com")
        (.vTime 1) (.vTime 1) .vNone)
      rfl rfl rfl rfl
  · have h := add_user_unique_auth_id_spec.2
      ⟨[mkUser (.vInt 1) (.vStr "auth0-1") .vNone .vNone (.vStr "e@e.com")
          (.vTime 1) (.vTime 1) .vNone], [], []⟩
      [("user", .vDict [("user_id", .vStr "auth0-2"),
          ("email", .vStr "f@f.com"), ("created_at", .vTime 3)]),
       ("roles", .vList [.vStr "Admin"])]
      [("user_id", .vStr "auth0-2"), ("email", .vStr "f@f.com"),
       ("created_at", .vTime 3)]
      rfl rfl rfl rfl rfl
    rw [h]
    rfl

theorem gatedRoute_no_token (permission : String) (db : DB)
    (handler : DB → HResp) :
    gatedRoute permission none db handler = ⟨401, none, db⟩ := rfl

theorem gatedRoute_missing_permission (permission : String) (t : Token)
    (db : DB) (handler : DB → HResp) (hver : t.verified = true)
    (hperm : t.permissions.contains permission = false) :
    gatedRoute permission (some t) db handler = ⟨403, none, db⟩ := by
  unfold gatedRoute requires_auth
  dsimp only
  rw [hver, hperm]
  rfl

theorem gatedRoute_ok (permission : String) (t : Token) (db : DB)
    (handler : DB → HResp) (hver : t.verified = true)
    (hperm : t.permissions.contains permission = true) :
    gatedRoute permission (some t) db handler = handler db := by
  unfold gatedRoute requires_auth
  dsimp only
  rw [hver, hperm]
  rfl

/-- C6: every permission-gated route - `GET /issues/<id>`,
`POST/PATCH/DELETE /issues`, `POST/PATCH/DELETE /comments` - answers 401
when no bearer token is supplied, and 403 when a verified token's
`permissions` claim lacks the route's required permission.  (The
authorization layer lives in `api/auth.py`, absent from the repository, and
is modelled from the specification.) -/
theorem gated_routes_auth_spec (db : DB) (id : Nat) (body : Body) (now : Nat) :
    (route_get_issue none db id = ⟨401, none, db⟩ ∧
     route_post_issue none db body now = ⟨401, none, db⟩ ∧
     route_patch_issues none db id body now = ⟨401, none, db⟩ ∧
     route_delete_issues none db id = ⟨401, none, db⟩ ∧
     route_post_comment none db body now = ⟨401, none, db⟩ ∧
     route_patch_comments none db id body now = ⟨401, none, db⟩ ∧
     route_delete_comments none db id = ⟨401, none, db⟩) ∧
    (∀ t : Token, t.verified = true →
      (t.permissions.contains "get:issue" = false →
        route_get_issue (some t) db id = ⟨403, none, db⟩) ∧
      (t.permissions.contains "post:issues" = false →
        route_post_issue (some t) db body now = ⟨403, none, db⟩) ∧
      (t.permissions.contains "patch:issues" = false →
        route_patch_issues (some t) db id body now = ⟨403, none, db⟩) ∧
      (t.permissions.contains "delete:issues" = false →
        route_delete_issues (some t) db id = ⟨403, none, db⟩) ∧
      (t.permissions.contains "post:comments" = false →
        route_post_comment (some t) db body now = ⟨403, none, db⟩) ∧
      (t.permissions.contains "patch:comments" = false →
        route_patch_comments (some t) db id body now = ⟨403, none, db⟩) ∧
      (t.permissions.contains "delete:comments" = false →
        route_delete_comments (some t) db id = ⟨403, none, db⟩)) := by
  refine ⟨⟨rfl, rfl, rfl, rfl, rfl, rfl, rfl⟩, ?_⟩
  intro t hver
  exact ⟨fun hperm => gatedRoute_missing_permission _ t db _ hver hperm,
    fun hperm => gatedRoute_missing_permission _ t db _ hver hperm,
    fun hperm => gatedRoute_missing_permission _ t db _ hver hperm,
    fun hperm => gatedRoute_missing_permission _ t db _ hver hperm,
    fun hperm => gatedRoute_missing_permission _ t db _ hver hperm,
    fun hperm => gatedRoute_missing_permission _ t db _ hver hperm,
    fun hperm => gatedRoute_missing_permission _ t db _ hver hperm⟩

/-- Witness for `gated_routes_auth_spec`: a token verified but holding no
permissions at all. -/
theorem gated_routes_auth_spec_witness :
    route_get_issue (some ⟨true, []⟩) ⟨[], [], []⟩ 1 =
      ⟨403, none, ⟨[], [], []⟩⟩ ∧
    route_get_issue none ⟨[], [], []⟩ 1 = ⟨401, none, ⟨[], [], []⟩⟩ := by
  constructor
  · exact ((gated_routes_auth_spec ⟨[], [], []⟩ 1 [] 0).2
      ⟨true, []⟩ rfl).1 rfl
  · exact (gated_routes_auth_spec ⟨[], [], []⟩ 1 [] 0).1.1

/-- C7: an authenticated `GET /issues/<id>` (token verified and holding
`get:issue`) answers 404 when no issue has the id; when the issue exists
(and its owning user row does, as the foreign key guarantees) it answers 200
with the long form, whose `comments` entry is the mapping keyed by the id of
each comment referencing the issue. -/
theorem get_issue_long_form_spec (db : DB) (id : Nat) (t : Token)
    (hver : t.verified = true)
    (hperm : t.permissions.contains "get:issue" = true) :
    (db.issues.find? (fun i => i.id == id) = none →
      route_get_issue (some t) db id = ⟨404, none, db⟩) ∧
    (∀ (issue : IssueRow) (u : UserRow),
      db.issues.find? (fun i => i.id == id) = some issue →
      findUserById db issue.user_id = some u →
      route_get_issue (some t) db id =
        ⟨200,
         some (successEnvelope "issue"
           (.vDict [("id", .vInt issue.id), ("title", issue.title),
             ("open", issue.openFlag), ("text", issue.text),
             ("created_at", fmtDT issue.created_at),
             ("closed_at", fmtDT issue.closed_at),
             ("last_modified", fmtDT issue.last_modified),
             ("user", format_short u),
             ("comments", .vDict
               ((db.comments.filter
                   (fun c => c.issue_id == .vInt issue.id)).map
                 (fun c => (toString c.id, comment_format c))))])),
         db⟩) := by
  constructor
  · intro hfind
    show gatedRoute "get:issue" (some t) db (fun db => get_issue db id) = _
    rw [gatedRoute_ok _ t db _ hver hperm]
    unfold get_issue
    rw [hfind]
  · intro issue u hfind hu
    show gatedRoute "get:issue" (some t) db (fun db => get_issue db id) = _
    rw [gatedRoute_ok _ t db _ hver hperm]
    unfold get_issue
    rw [hfind]
    dsimp only
    unfold format_with_comments
    rw [hu]
    rfl

/-- Witness for `get_issue_long_form_spec`: a store with one issue and one
comment; the long form carries the comment keyed by its id "1". -/
theorem get_issue_long_form_spec_witness :
    route_get_issue (some ⟨true, ["get:issue"]⟩)
      ⟨[mkUser (.vInt 1) (.vStr "auth0-1") .vNone .vNone (.vStr "e@e.com")
          (.vTime 1) (.vTime 1) .vNone],
       [⟨1, .vStr "t", .vBool true, .vStr "x", .vTime 1, .vNone, .vNone,
          .vInt 1⟩],
       [⟨1, .vStr "c", .vTime 1, .vNone, .vInt 1, .vInt 1⟩]⟩ 1 =
      ⟨200,
       some (successEnvelope "issue"
         (.vDict [("id", .vInt 1), ("title", .vStr "t"),
           ("open", .vBool true), ("text", .vStr "x"),
           ("created_at", fmtDT (.vTime 1)), ("closed_at", fmtDT .vNone),
           ("last_modified", fmtDT .vNone),
           ("user", format_short (mkUser (.vInt 1) (.vStr "auth0-1") .vNone
             .vNone (.vStr "e@e.com") (.vTime 1) (.vTime 1) .vNone)),
           ("comments", .vDict
             (([⟨1, .vStr "c", .vTime 1, .vNone, .vInt 1, .vInt 1⟩].filter
                 (fun c => c.issue_id == PyVal.vInt 1)).map
               (fun c => (toString c.id, comment_format c))))])),
       ⟨[mkUser (.vInt 1) (.vStr "auth0-1") .vNone .vNone (.vStr "e@e.com")
           (.vTime 1) (.vTime 1) .vNone],
        [⟨1, .vStr "t", .vBool true, .vStr "x", .vTime 1, .vNone, .vNone,
           .vInt 1⟩],
        [⟨1, .vStr "c", .vTime 1, .vNone, .vInt 1, .vInt 1⟩]⟩⟩ ∧
    route_get_issue (some ⟨true, ["get:issue"]⟩) ⟨[], [], []⟩ 9 =
      ⟨404, none, ⟨[], [], []⟩⟩ := by
  constructor
  · exact (get_issue_long_form_spec
      ⟨[mkUser (.vInt 1) (.vStr "auth0-1") .vNone .vNone (.vStr "e@e.com")
          (.vTime 1) (.vTime 1) .vNone],
       [⟨1, .vStr "t", .vBool true, .vStr "x", .vTime 1, .vNone, .vNone,
          .vInt 1⟩],
       [⟨1, .vStr "c", .vTime 1, .vNone, .vInt 1, .vInt 1⟩]⟩ 1
      ⟨true, ["get:issue"]⟩ rfl rfl).2
      ⟨1, .vStr "t", .vBool true, .vStr "x", .vTime 1, .vNone, .vNone, .vInt 1⟩
      (mkUser (.vInt 1) (.vStr "auth0-1") .vNone .vNone (.vStr "e@e.com")
        (.vTime 1) (.vTime 1) .vNone)
      rfl rfl
  · exact (get_issue_long_form_spec ⟨[], [], []⟩ 9
      ⟨true, ["get:issue"]⟩ rfl rfl).1 rfl

/-- C9 counterexample: `POST /users` from the accepted host with the body
`{'roles': ['Admin']}` (all present values truthy, but no `user` object)
crashes on `None.get('user_id')`: the response is a 500 that carries no
JSON envelope, because 500 is not among the statuses `error_handler` is
registered for. -/
theorem error_envelope_unhandled_500_cx :
    add_user true ⟨[], [], []⟩ [("roles", .vList [.vStr "Admin"])] =
      ⟨500, none, ⟨[], [], []⟩⟩ ∧
    handled_error_codes.contains 500 = false :=
  ⟨rfl, rfl⟩

/-- C9 (amended): for every failure answered through `error_handler` - the
registered statuses 400/401/403/404/405/422 and every raised `AuthError` -
the response body is `{'success': False, 'error': code,
'message': description}` and the HTTP status equals the `error` field. -/
theorem error_envelope_spec (code : Nat) (d : String)
    (h : handled_error_codes.contains code = true) :
    ((error_handler code d).1 = code ∧
     jsonGet (error_handler code d).2 "success" = .vBool false ∧
     jsonGet (error_handler code d).2 "error" = .vInt code ∧
     jsonGet (error_handler code d).2 "message" = .vStr d) ∧
    (∀ e : AuthError,
      (error_handler e.code e.description).1 = e.code ∧
      jsonGet (error_handler e.code e.description).2 "success" =
        .vBool false ∧
      jsonGet (error_handler e.code e.description).2 "error" =
        .vInt e.code ∧
      jsonGet (error_handler e.code e.description).2 "message" =
        .vStr e.description) :=
  ⟨⟨rfl, rfl, rfl, rfl⟩, fun _ => ⟨rfl, rfl, rfl, rfl⟩⟩

/-- Witness for `error_envelope_spec`: the 404 abort. -/
theorem error_envelope_spec_witness :
    ((error_handler 404 "resource not found").1 = 404 ∧
     jsonGet (error_handler 404 "resource not found").2 "success" =
       .vBool false ∧
     jsonGet (error_handler 404 "resource not found").2 "error" =
       .vInt 404 ∧
     jsonGet (error_handler 404 "resource not found").2 "message" =
       .vStr "resource not found") ∧
    (∀ e : AuthError,
      (error_handler e.code e.description).1 = e.code ∧
      jsonGet (error_handler e.code e.description).2 "success" =
        .vBool false ∧
      jsonGet (error_handler e.code e.description).2 "error" =
        .vInt e.code ∧
      jsonGet (error_handler e.code e.description).2 "message" =
        .vStr e.description) :=
  error_envelope_spec 404 "resource not found" rfl

theorem userGet_userSet_ne (u : UserRow) (k2 k : String) (v : PyVal)
    (hne : k ≠ k2) :
    userGet (userSet u k2 v) k = userGet u k := by
  unfold userSet
  by_cases hmem : (List.find? (fun kv => kv.1 == k2) u).isSome = true
  · simp only [hmem, if_true]
    unfold userGet lookupOrNone
    rw [List.find?_map]
    have hp : ((fun kv : String × PyVal => kv.1 == k) ∘
        (fun kv : String × PyVal => if kv.1 == k2 then (kv.1, v) else kv))
        = (fun kv : String × PyVal => kv.1 == k) := by
      funext kv
      by_cases h : kv.1 = k2 <;> simp [h]
    rw [hp]
    cases hf : List.find? (fun kv : String × PyVal => kv.1 == k) u with
    | none => rfl
    | some kv =>
      have hk := List.find?_some hf
      have hk2 : (kv.1 == k2) = false := by
        have he : kv.1 = k := by simpa using hk
        rw [he]
        simpa using hne
      have hk2' : ¬ (kv.1 = k2) := by simpa using hk2
      simp [hk2']
  · simp [hmem]

theorem updateUserFields_preserves_falsy (k : String) (user_dict : Body) :
    ∀ u : UserRow, truthy (userGet u k) = false →
      userGet (updateUserFields u user_dict) k = userGet u k := by
  unfold updateUserFields
  induction user_dict with
  | nil => intro u _; rfl
  | cons kv rest ih =>
    intro u h
    rw [List.foldl_cons]
    by_cases hk : kv.1 = k
    · have hguard : (truthy (userGet u kv.1)
          && !(pyBeq (userGet u kv.1) kv.2)) = false := by
        rw [hk, h, Bool.false_and]
      rw [hguard]
      simp only [Bool.false_eq_true, if_false]
      exact ih u h
    · by_cases hguard : (truthy (userGet u kv.1)
          && !(pyBeq (userGet u kv.1) kv.2)) = true
      · rw [hguard]
        simp only [if_true]
        have hne : k ≠ kv.1 := fun he => hk he.symm
        have hset := userGet_userSet_ne u kv.1 k kv.2 hne
        have h' : truthy (userGet (userSet u kv.1 kv.2) k) = false := by
          rw [hset]; exact h
        rw [ih (userSet u kv.1 kv.2) h', hset]
      · rw [Bool.eq_false_iff.mpr hguard]
        simp only [Bool.false_eq_true, if_false]
        exact ih u h

/-- C10: in `PATCH /users`, the per-field loop never overwrites a field
whose stored value is falsy (in particular a `None` field stays `None`
whatever the body supplies), and of the separately-handled assignments only
`roles` and `last_login` can touch a falsy field: applying the handler's
whole row mutation `update_user_row` leaves every falsy field other than
`roles` and `last_login` exactly as it was. -/
theorem update_user_preserves_falsy_fields :
    (∀ (u : UserRow) (user_dict : Body) (new_roles : PyVal) (now : Nat)
        (k : String),
      k ≠ "roles" → k ≠ "last_login" →
      truthy (userGet u k) = false →
      userGet (update_user_row u user_dict new_roles now) k = userGet u k) ∧
    (∀ (db : DB) (body user_dict : Body) (u : UserRow) (now : Nat),
      lookupOrNone body "user" = .vDict user_dict →
      db.users.filter
        (fun w => pyBeq (userGet w "auth_id")
          (lookupOrNone user_dict "user_id")) = [u] →
      (update_user true db body now).status = 200 →
      (update_user true db body now).db.users =
        db.users.map (fun w =>
          if pyBeq (userGet w "auth_id") (lookupOrNone user_dict "user_id")
          then update_user_row u user_dict (lookupOrNone body "roles") now
          else w)) := by
  constructor
  · intro u user_dict new_roles now k hkr hkl h
    unfold update_user_row
    dsimp only
    rw [userGet_userSet_ne _ _ _ _ hkl]
    by_cases hr : pyBeq
        (userGet (updateUserFields u user_dict) "roles") new_roles
    · rw [hr]
      simp only [Bool.not_true, Bool.false_eq_true, if_false]
      exact updateUserFields_preserves_falsy k user_dict u h
    · rw [Bool.eq_false_iff.mpr hr]
      simp only [Bool.not_false, if_true]
      rw [userGet_userSet_ne _ _ _ _ hkr]
      exact updateUserFields_preserves_falsy k user_dict u h
  · intro db body user_dict u now huser hfilt h200
    unfold update_user at h200 ⊢
    rw [huser] at h200 ⊢
    dsimp only at h200 ⊢
    rw [hfilt] at h200 ⊢
    cases hroles : lookupOrNone body "roles" with
    | vNone => rw [hroles] at h200; simp at h200
    | vBool b =>
      rw [hroles] at h200
      by_cases hok : userCommitOk (update_user_row u user_dict (.vBool b) now) = true
      · simp [hok]
      · simp [hok] at h200
    | vInt n =>
      rw [hroles] at h200
      by_cases hok : userCommitOk (update_user_row u user_dict (.vInt n) now) = true
      · simp [hok]
      · simp [hok] at h200
    | vStr str =>
      rw [hroles] at h200
      by_cases hok : userCommitOk (update_user_row u user_dict (.vStr str) now) = true
      · simp [hok]
      · simp [hok] at h200
    | vTime t =>
      rw [hroles] at h200
      by_cases hok : userCommitOk (update_user_row u user_dict (.vTime t) now) = true
      · simp [hok]
      · simp [hok] at h200
    | vList l =>
      rw [hroles] at h200
      by_cases hok : userCommitOk (update_user_row u user_dict (.vList l) now) = true
      · simp [hok]
      · simp [hok] at h200
    | vDict d =>
      rw [hroles] at h200
      by_cases hok : userCommitOk (update_user_row u user_dict (.vDict d) now) = true
      · simp [hok]
      · simp [hok] at h200

/-- Witness for `update_user_preserves_falsy_fields`: a stored user whose
`nickname` is `None` keeps it `None` although the body supplies one, and the
successful request stores exactly the mutated row. -/
theorem update_user_preserves_falsy_fields_witness :
    userGet (update_user_row
      (mkUser (.vInt 1) (.vStr "auth0-1") .vNone .vNone (.vStr "e@e.com")
        (.vTime 1) (.vTime 1) (.vList [.vStr "R"]))
      [("user_id", .vStr "auth0-1"), ("nickname", .vStr "X")]
      (.vList [.vStr "Admin"]) 50) "nickname" =
      userGet (mkUser (.vInt 1) (.vStr "auth0-1") .vNone .vNone
        (.vStr "e@e.com") (.vTime 1) (.vTime 1) (.vList [.vStr "R"]))
        "nickname" ∧
    (update_user true
      ⟨[mkUser (.vInt 1) (.vStr "auth0-1") .vNone .vNone (.vStr "e@e.com")
          (.vTime 1) (.vTime 1) (.vList [.vStr "R"])], [], []⟩
      [("user", .vDict [("user_id", .vStr "auth0-1"),
          ("nickname", .vStr "X")]),
       ("roles", .vList [.vStr "Admin"])] 50).db.users =
      [mkUser (.vInt 1) (.vStr "auth0-1") .vNone .vNone (.vStr "e@e.com")
        (.vTime 1) (.vTime 1) (.vList [.vStr "R"])].map (fun w =>
        if pyBeq (userGet w "auth_id")
          (lookupOrNone [("user_id", PyVal.vStr "auth0-1"),
            ("nickname", PyVal.vStr "X")] "user_id")
        then update_user_row
          (mkUser (.vInt 1) (.vStr "auth0-1") .vNone .vNone (.vStr "e@e.com")
            (.vTime 1) (.vTime 1) (.vList [.vStr "R"]))
          [("user_id", .vStr "auth0-1"), ("nickname", .vStr "X")]
          (lookupOrNone [("user", PyVal.vDict [("user_id", PyVal.vStr "auth0-1"),
            ("nickname", PyVal.vStr "X")]),
            ("roles", PyVal.vList [PyVal.vStr "Admin"])] "roles") 50
        else w) := by
  constructor
  · exact update_user_preserves_falsy_fields.1
      (mkUser (.vInt 1) (.vStr "auth0-1") .vNone .vNone (.vStr "e@e.com")
        (.vTime 1) (.vTime 1) (.vList [.vStr "R"]))
      [("user_id", .vStr "auth0-1"), ("nickname", .vStr "X")]
      (.vList [.vStr "Admin"]) 50 "nickname"
      (by decide) (by decide) rfl
  · exact update_user_preserves_falsy_fields.2
      ⟨[mkUser (.vInt 1) (.vStr "auth0-1") .vNone .vNone (.vStr "e@e.com")
          (.vTime 1) (.vTime 1) (.vList [.vStr "R"])], [], []⟩
      [("user", .vDict [("user_id", .vStr "auth0-1"),
          ("nickname", .vStr "X")]),
       ("roles", .vList [.vStr "Admin"])]
      [("user_id", .vStr "auth0-1"), ("nickname", .vStr "X")]
      (mkUser (.vInt 1) (.vStr "auth0-1") .vNone .vNone (.vStr "e@e.com")
        (.vTime 1) (.vTime 1) (.vList [.vStr "R"]))
      50 rfl rfl rfl
